import Mathlib

/-!
Verification development for the ai-marketing repository.

We shallowly embed the core components described in the spec:
  * `DocumentProcessor.split_into_chunks` (src/app/document_processor.py)
  * `DocumentProcessor._load_txt` (src/app/document_processor.py)
  * `_retry_call` (src/app/rag_engine.py)
  * the `YandexRAG` state machine (`add_file` / `remove_file` / `clear_all` /
    `_ensure_assistant` / `analyze`) and the `RAGEngine` orchestrator
    (`analyze` / `analyze_text` / `analyze_image`) (src/app/rag_engine.py)

Python strings are modelled as `List Char`; Python `int` indices as `Int`
(slice indices can go negative in the chunking loop); remote services are
modelled as explicit outcome environments (any remote call may either return
a value or raise, represented with `Except`).
-/

namespace AdCensor

/-! ### Python string primitives -/

/-- Python `str.strip()` whitespace set (ASCII part: space, \t, \n, \r, \x0b, \x0c). -/
def pyIsSpace (c : Char) : Bool :=
  c == ' ' || c == '\t' || c == '\n' || c == '\r' || c == '\x0b' || c == '\x0c'

/-- Left strip: drop leading whitespace. -/
def pyLStrip (l : List Char) : List Char := l.dropWhile pyIsSpace

/-- Python `str.strip()`: drop leading and trailing whitespace. -/
def pyStrip (l : List Char) : List Char :=
  ((pyLStrip l).reverse.dropWhile pyIsSpace).reverse

/-- Definition: `headMatch sub l` is true iff `sub` occurs at the very start of `l`. -/
def headMatch : List Char → List Char → Bool
  | [], _ => true
  | _ :: _, [] => false
  | a :: s, b :: t => a == b && headMatch s t

/-- Definition: `subAt text sub i`: the substring `sub` occurs in `text` at position `i`. -/
def subAt (text sub : List Char) (i : Nat) : Bool := headMatch sub (text.drop i)

/-- Search downward from position `i` for the last occurrence of `sub`. -/
def rfindAux (text sub : List Char) : Nat → Option Nat
  | 0 => if subAt text sub 0 then some 0 else none
  | i + 1 => if subAt text sub (i + 1) then some (i + 1) else rfindAux text sub i

/-- Python `str.rfind(sub)`: index of last occurrence (`none` for -1). -/
def pyRfind (text sub : List Char) : Option Nat :=
  if sub.length ≤ text.length then rfindAux text sub (text.length - sub.length) else none

/-- Python `sub in text` substring test. -/
def containsSub (text sub : List Char) : Bool := (pyRfind text sub).isSome

/-- Substring test on `String`s: Python `sub in s`. -/
def strContains (s sub : String) : Bool := containsSub s.data sub.data

/-- Normalize a Python slice index to an absolute list position. -/
def pyIdx (len : Nat) (i : Int) : Nat :=
  if i < 0 then (len + i).toNat else min i.toNat len

/-- Python slice `l[a:b]` with possibly negative `Int` endpoints. -/
def pySlice (l : List Char) (a b : Int) : List Char :=
  (l.take (pyIdx l.length b)).drop (pyIdx l.length a)

/-! ### Chunker (`DocumentProcessor.split_into_chunks`) -/

/-- One produced chunk: `{"id": f"{source}_chunk_{chunk_id}", "text": clean,
    "source": source, "chunk_index": chunk_id}`. -/
structure Chunk where
  id : String
  text : List Char
  source : String
  chunk_index : Nat
deriving DecidableEq

/-- The separator priority list `(".\n", "\n", ". ", "? ", "! ")`. -/
def sepList : List (List Char) :=
  [['.', '\n'], ['\n'], ['.', ' '], ['?', ' '], ['!', ' ']]

/-- The boundary-snapping pass inside the loop: for the first separator whose
    last occurrence `pos` satisfies `pos > chunk_size * 0.4`, return the window
    cut to `chunk_text[: pos + len(sep)]`; otherwise `none` (no snap).
    The float threshold `chunk_size * 0.4` is modelled as the exact comparison
    `2 * chunk_size < 5 * pos`; the two agree at every chunk size used in the
    claims (in particular 1000 and 10). -/
def trySnap (chunk_size : Nat) (chunk_text : List Char) : Option (List Char) :=
  sepList.findSome? fun sep =>
    match pyRfind chunk_text sep with
    | some pos =>
        if 2 * chunk_size < 5 * pos then some (chunk_text.take (pos + sep.length)) else none
    | none => none

/-- The chunk dictionary built in the loop body. -/
def mkChunk (source : String) (clean : List Char) (chunk_id : Nat) : Chunk :=
  { id := source ++ "_chunk_" ++ toString chunk_id
    text := clean
    source := source
    chunk_index := chunk_id }

/-- The `while start < len(text)` loop of `split_into_chunks`, with explicit
    fuel (one unit per iteration; the loop can genuinely diverge for some
    parameter choices, see the C4 analysis).  Returns the list of chunks
    produced from the current state onward, or `none` if fuel runs out.
    `start` is an `Int`: `start = end - chunk_overlap` can go negative. -/
def chunkLoop (chunk_size chunk_overlap : Nat) (text : List Char) (source : String) :
    Nat → Int → Nat → Option (List Chunk)
  | 0, start, _ =>
    if start < (text.length : Int) then none else some []
  | fuel + 1, start, chunk_id =>
    if start < (text.length : Int) then
        let endPos : Int := min (start + (chunk_size : Int)) (text.length : Int)
        let chunk_text := pySlice text start endPos
        let snapped : List Char × Int :=
          if endPos < (text.length : Int) then
            match trySnap chunk_size chunk_text with
            | some ct => (ct, start + (ct.length : Int))
            | none => (chunk_text, endPos)
          else (chunk_text, endPos)
        let clean := pyStrip snapped.1
        let start' : Int := snapped.2 - (chunk_overlap : Int)
        let tail : Option (List Chunk) :=
          if (text.length : Int) ≤ start' ∨ snapped.2 = (text.length : Int) then some []
          else chunkLoop chunk_size chunk_overlap text source fuel start'
                 (if clean ≠ [] then chunk_id + 1 else chunk_id)
        if clean ≠ [] then Option.map (mkChunk source clean chunk_id :: ·) tail else tail
    else some []

/-- Definition: `DocumentProcessor.split_into_chunks(text, source)` with explicit fuel. -/
def split_into_chunks (chunk_size chunk_overlap : Nat) (textRaw : List Char)
    (source : String) (fuel : Nat) : Option (List Chunk) :=
  let text := pyStrip textRaw
  if text = [] then some [] else chunkLoop chunk_size chunk_overlap text source fuel 0 0

/-- The chunking loop diverges on this input: no finite fuel completes it. -/
def splitDiverges (chunk_size chunk_overlap : Nat) (textRaw : List Char)
    (source : String) : Prop :=
  ∀ fuel, split_into_chunks chunk_size chunk_overlap textRaw source fuel = none

/-! ### Retry wrapper (`_retry_call`) -/

/-- Definition: `is_rate_limit = "429" in err_str or "ResourceExhausted" in err_str`. -/
def isRateLimitMsg (e : String) : Bool :=
  strContains e "429" || strContains e "ResourceExhausted"

/-- One run of `fn` is modelled by the outcome of its `attempt`-th invocation. -/
def FnOutcomes (α : Type) := Nat → Except String α

/-- The `for attempt in range(max_retries + 1)` loop of `_retry_call`, running
    from `attempt = max_retries - d` with `d + 1` iterations left.  Returns
    the final outcome (`.error e` models `raise`), the list of slept delays
    (`base_delay * 2 ** attempt` each), and the number of invocations of `fn`. -/
def retryAux {α : Type} (f : FnOutcomes α) (max_retries : Nat) (base_delay : ℚ) :
    Nat → Except String α × List ℚ × Nat
  | 0 =>
    match f max_retries with
    | .ok v => (.ok v, [], 1)
    | .error e => (.error e, [], 1)
  | d + 1 =>
    let attempt := max_retries - (d + 1)
    match f attempt with
    | .ok v => (.ok v, [], 1)
    | .error e =>
      if isRateLimitMsg e ∧ attempt < max_retries then
        let rest := retryAux f max_retries base_delay d
        (rest.1, base_delay * 2 ^ attempt :: rest.2.1, rest.2.2 + 1)
      else (.error e, [], 1)

/-- Definition: `_retry_call(fn, max_retries, base_delay)`: attempts `0 .. max_retries`. -/
def retry_call {α : Type} (f : FnOutcomes α) (max_retries : Nat) (base_delay : ℚ) :
    Except String α × List ℚ × Nat :=
  retryAux f max_retries base_delay max_retries

/-! ### `_parse_grpc_error` -/

/-- The `status_hints` dict (insertion order preserved). -/
def statusHints : List (String × String) :=
  [("PERMISSION_DENIED",
    "Доступ запрещён. Проверьте:\n  1) API-ключ корректный (не OAuth-токен)\n  2) API-ключ привязан к сервисному аккаунту с ролями:\n     - ai.editor (или ai.admin)\n     - ai.assistants.editor\n  3) Folder ID - правильный\n  4) Сервисный аккаунт состоит в этом каталоге"),
   ("UNAUTHENTICATED",
    "Не авторизован. API-ключ недействителен или истёк.\nСоздайте новый ключ на https://console.yandex.cloud/"),
   ("NOT_FOUND", "Ресурс не найден. Проверьте Folder ID."),
   ("INVALID_ARGUMENT", "Неверный аргумент. Файл повреждён или формат не поддерживается."),
   ("RESOURCE_EXHAUSTED", "Лимит исчерпан. Подождите или увеличьте квоту.")]

/-- Definition: `_parse_grpc_error(e)`: first matching status hint plus truncated original,
    otherwise the message truncated to 300 characters. -/
def parse_grpc_error (msg : String) : String :=
  match statusHints.find? (fun p => strContains msg p.1) with
  | some p => p.2 ++ "\n\nОригинал: " ++ msg.take 200
  | none => msg.take 300

/-! ### `YandexRAG` state machine

Remote services are modelled by outcome environments: each remote call either
returns a value (`.ok`) or raises (`.error msg`).  Exceptions that Python
propagates are modelled as `.error` results; exceptions that the code swallows
(`try: ... except Exception: pass`) do not appear because they cannot affect
the resulting state or return value. -/

/-- Mutable state of a `YandexRAG` object: `_files` (an insertion-ordered
    dict name → file id), `_search_index`, `_assistant`, `_index_dirty`. -/
structure YState where
  files : List (String × String)
  searchIndex : Option String
  assistant : Option Nat
  indexDirty : Bool
deriving DecidableEq

/-- Python dict assignment `d[k] = v` on an insertion-ordered assoc list. -/
def assocSet : List (String × String) → String → String → List (String × String)
  | [], k, v => [(k, v)]
  | (k', v') :: t, k, v =>
    if k' = k then (k, v) :: t else (k', v') :: assocSet t k v

/-- Python `d.pop(k, None)` (membership removal part). -/
def assocErase : List (String × String) → String → List (String × String)
  | [], _ => []
  | (k', v') :: t, k => if k' = k then t else (k', v') :: assocErase t k

/-- Python `d.get(k)` / `d[k]`. -/
def assocGet : List (String × String) → String → Option String
  | [], _ => none
  | (k', v') :: t, k => if k' = k then some v' else assocGet t k

/-- Errors `add_file` can raise: both are `RuntimeError`s in the source, one
    from the upload `try` block and one from the indexing `try` block. -/
inductive AddFileErr where
  | uploadError (msg : String)
  | indexingError (msg : String)
deriving DecidableEq

/-- Remote outcomes relevant to one `add_file` call. -/
structure AddEnv where
  uploadRes : Except String String
  indexRes : Except String String

/-- Definition: `YandexRAG.add_file(file_path)`: upload, record `name → id`, then create or
    extend the search index; `self._index_dirty = True` only after successful
    indexing.  `env.uploadRes` is the outcome of `sdk.files.upload` (`.ok` gives
    the file id), `env.indexRes` the outcome of the whole indexing block
    (`.ok` gives the id of the created index when none existed). -/
def YandexRAG.add_file (env : AddEnv) (name : String) (st : YState) :
    Except AddFileErr String × YState :=
  match env.uploadRes with
  | .error e =>
    (.error (.uploadError ("Ошибка загрузки файла '" ++ name ++ "':\n" ++ parse_grpc_error e)), st)
  | .ok fid =>
    let st1 : YState := { st with files := assocSet st.files name fid }
    match env.indexRes with
    | .error e =>
      (.error (.indexingError
        ("Файл '" ++ name ++ "' загружен, но ошибка индексации:\n" ++ parse_grpc_error e)), st1)
    | .ok idxId =>
      let st2 : YState :=
        match st1.searchIndex with
        | none => { st1 with searchIndex := some idxId }
        | some _ => st1
      (.ok name, { st2 with indexDirty := true })

/-- Definition: `YandexRAG.remove_file(source_name)`: pops the name from `_files`; the
    best-effort remote delete is swallowed and leaves no trace in the state.
    Never raises. -/
def YandexRAG.remove_file (name : String) (st : YState) : YState :=
  { st with files := assocErase st.files name }

/-- Definition: `YandexRAG.clear_all()`: best-effort deletes assistant, index and all
    files (errors swallowed), empties `_files`, sets `_index_dirty = True`. -/
def YandexRAG.clear_all (_st : YState) : YState :=
  { files := [], searchIndex := none, assistant := none, indexDirty := true }

/-- Remote outcomes relevant to one `YandexRAG.analyze` call:
    `createRes` is the outcome of `sdk.assistants.create` (in
    `_ensure_assistant`), `runRes` the combined outcome of the
    thread-create/write/run/wait block (`.ok` gives `result.text`, with the
    falsy-`text` case modelled as `""`). -/
structure AnalyzeEnv where
  createRes : Except String Nat
  runRes : Except String String

/-- Definition: `YandexRAG._ensure_assistant()`: cheap path if an assistant exists and the
    index is not dirty; otherwise best-effort delete the old assistant, clear
    the handle, and create a new one.  A `create` failure propagates
    (`.error`), leaving `_assistant = None` and the dirty flag unchanged. -/
def YandexRAG.ensure_assistant (env : AnalyzeEnv) (st : YState) :
    Except String Unit × YState :=
  if st.assistant.isSome ∧ ¬st.indexDirty then (.ok (), st)
  else
    let st1 : YState := { st with assistant := none }
    match env.createRes with
    | .error e => (.error e, st1)
    | .ok aid => (.ok (), { st1 with assistant := some aid, indexDirty := false })

/-- Definition: `YandexRAG.analyze(query)`.  Note: `self._ensure_assistant()` is called
    *outside* the `try` block, so a `create` failure propagates out of
    `analyze` (modelled as `.error`); everything inside the `try` is converted
    to a result string. -/
def YandexRAG.analyze (env : AnalyzeEnv) (_query : String) (st : YState) :
    Except String String × YState :=
  match YandexRAG.ensure_assistant env st with
  | (.error e, st1) => (.error e, st1)
  | (.ok _, st1) =>
    match st1.assistant with
    | none => (.ok "(Ошибка: не удалось создать ассистента YandexGPT)", st1)
    | some _ =>
      match env.runRes with
      | .error e => (.ok ("Ошибка анализа через YandexGPT:\n" ++ parse_grpc_error e), st1)
      | .ok text =>
        if pyStrip text.data ≠ [] then (.ok text, st1)
        else (.ok "(YandexGPT вернул пустой ответ.)", st1)

/-! ### `RAGEngine` orchestrator

Each orchestrator operation returns the result (`.error` models a propagated
exception), the updated `YandexRAG` state (when configured), and a pair of
call counters `(geminiCalls, yandexAnalyzeCalls)`: the number of Vision
Describer invocations and the number of `YandexRAG.analyze` invocations. -/

/-- Definition: `document_count()` as used inside the query templates. -/
def document_count (st : YState) : Nat := st.files.length

/-- The text-only query template of `analyze_text`. -/
def textQuery (st : YState) (text : String) : String :=
  "Проверь следующий рекламный материал на соответствие российскому законодательству о рекламе:\n\n\"\"\"\n"
    ++ text ++ "\n\"\"\"\n\n[Документов в базе знаний: " ++ toString (document_count st) ++ "]"

/-- The image+text query of `analyze_image`: `"\n".join(query_parts)`. -/
def imageQuery (st : YState) (description text : String) : String :=
  let base : List String :=
    ["Проверь следующий рекламный материал на соответствие российскому законодательству о рекламе.",
     "", "ОПИСАНИЕ ВИЗУАЛЬНОГО СОДЕРЖАНИЯ:", "\"\"\"", description, "\"\"\""]
  let withText : List String :=
    if pyStrip text.data ≠ [] then base ++ ["", "ТЕКСТ РЕКЛАМЫ:", "\"\"\"", text, "\"\"\""] else base
  String.intercalate "\n"
    (withText ++ ["\n[Документов в базе знаний: " ++ toString (document_count st) ++ "]"])

/-- Remote outcomes for one `RAGEngine.analyze_image` call: `describeRes` is
    the outcome of the whole `describe_image` call (PIL + Gemini behind the
    retry wrapper), `aEnv` the Yandex outcomes for the subsequent analysis. -/
structure ImgEnv where
  describeRes : Except String String
  aEnv : AnalyzeEnv

/-- Result bundle of an orchestrator call. -/
structure OrchResult where
  result : Except String String
  yandex : Option YState
  geminiCalls : Nat
  yandexCalls : Nat

/-- Definition: `RAGEngine.analyze_text(text)`: "not configured" fallback, else builds the
    query and delegates to `YandexRAG.analyze` (whose exceptions propagate). -/
def RAGEngine.analyze_text (env : AnalyzeEnv) (yandex : Option YState)
    (text : String) : OrchResult :=
  match yandex with
  | none => ⟨.ok "Yandex Cloud не настроен. Анализ невозможен.", none, 0, 0⟩
  | some st =>
    let r := YandexRAG.analyze env (textQuery st text) st
    ⟨r.1, some r.2, 0, 1⟩

/-- Definition: `RAGEngine.analyze_image(image_path, text)`: "not configured" fallback;
    then the Vision Describer call — on failure returns the short error
    string with a 200-character excerpt of the cause and performs no
    `YandexRAG.analyze` call; on success builds the combined query and
    delegates to `YandexRAG.analyze`. -/
def RAGEngine.analyze_image (env : ImgEnv) (yandex : Option YState)
    (text : String) : OrchResult :=
  match yandex with
  | none => ⟨.ok "Yandex Cloud не настроен. Анализ невозможен.", none, 0, 0⟩
  | some st =>
    match env.describeRes with
    | .error e =>
      ⟨.ok ("Ошибка описания изображения (Gemini):\n" ++ e.take 200), some st, 1, 0⟩
    | .ok description =>
      let r := YandexRAG.analyze env.aEnv (imageQuery st description text) st
      ⟨r.1, some r.2, 1, 1⟩

/-- Environment of one `RAGEngine.analyze` call: `fileExists` models
    `os.path.isfile`. -/
structure AnaEnv where
  fileExists : String → Bool
  imgEnv : ImgEnv
  txtEnv : AnalyzeEnv

/-- Definition: `RAGEngine.analyze(text, image_path)`: image+text flow when `image_path`
    is truthy and the file exists; else text-only flow when `text.strip()` is
    truthy; else the literal "nothing submitted" message, no remote call. -/
def RAGEngine.analyze (env : AnaEnv) (yandex : Option YState)
    (text : String) (image_path : Option String) : OrchResult :=
  let imageOk : Bool :=
    match image_path with
    | none => false
    | some p => p ≠ "" && env.fileExists p
  if imageOk then RAGEngine.analyze_image env.imgEnv yandex text
  else if pyStrip text.data ≠ [] then RAGEngine.analyze_text env.txtEnv yandex text
  else ⟨.ok "Не предоставлен материал для проверки. Введите текст или прикрепите изображение.",
        yandex, 0, 0⟩

/-! ### `DocumentProcessor._load_txt` -/

/-- Errors out of `_load_txt`: an OS-level open/read error (not caught by the
    `except (UnicodeDecodeError, LookupError)` clause, so it propagates
    unchanged), or the final `ValueError` after every encoding failed. -/
inductive LoadTxtErr where
  | osError (msg : String)
  | valueError (msg : String)
deriving DecidableEq

/-- Latin-1 decoding: every byte decodes to the character with the same code
    point; it is total (returns `some` on every input). -/
def latin1Decode (bs : List (Fin 256)) : Option (List Char) :=
  some (bs.map fun b => Char.ofNat b.val)

/-- Definition: `DocumentProcessor._load_txt(path)`: try utf-8, then cp1251, then
    latin-1; raise `ValueError` if all fail.  The utf-8 and cp1251 codecs are
    arbitrary partial decoders (parameters); latin-1 is the concrete total
    decoder.  `openRes` is the outcome of opening/reading the file: an OS
    error propagates unchanged out of the first iteration. -/
def load_txt (utf8 cp1251 : List (Fin 256) → Option (List Char))
    (path : String) (openRes : Except String (List (Fin 256))) :
    Except LoadTxtErr (List Char) :=
  match openRes with
  | .error e => .error (.osError e)
  | .ok bs =>
    match utf8 bs with
    | some t => .ok t
    | none =>
      match cp1251 bs with
      | some t => .ok t
      | none =>
        match latin1Decode bs with
        | some t => .ok t
        | none => .error (.valueError ("Не удалось прочитать файл: " ++ path))

/-! ## Claims -/

/-- Claim C10 (confirmed): for every byte content of a readable plain-text
    file, `_load_txt` returns decoded text (the latin-1 fallback is total, so
    the `ValueError` branch after all encodings fail is unreachable), and an
    OS-level open/read error propagates unchanged, not as that `ValueError`. -/
theorem C10_load_txt_total (utf8 cp1251 : List (Fin 256) → Option (List Char))
    (path : String) (openRes : Except String (List (Fin 256))) :
    (∀ bs, openRes = .ok bs → ∃ t, load_txt utf8 cp1251 path openRes = .ok t) ∧
    (∀ e, openRes = .error e →
      load_txt utf8 cp1251 path openRes = .error (.osError e)) := by
  constructor
  · intro bs hbs
    subst hbs
    unfold load_txt
    cases h1 : utf8 bs with
    | some t => exact ⟨t, by simp [h1]⟩
    | none =>
      cases h2 : cp1251 bs with
      | some t => exact ⟨t, by simp [h1, h2]⟩
      | none => exact ⟨bs.map fun b => Char.ofNat b.val, by simp [h1, h2, latin1Decode]⟩
  · intro e he
    subst he
    rfl

/-- Witness for C10: a concrete readable file whose bytes neither utf-8 nor
    cp1251 decode still loads (via latin-1). -/
theorem C10_load_txt_total_witness :
    ∃ t, load_txt (fun _ => none) (fun _ => none) "doc.txt"
      (.ok [(152 : Fin 256)]) = .ok t :=
  (C10_load_txt_total (fun _ => none) (fun _ => none) "doc.txt"
    (.ok [(152 : Fin 256)])).1 [(152 : Fin 256)] rfl

/-- Claim C9 (confirmed): when no usable image path is given (absent, empty,
    or not an existing file) and the text is empty or whitespace-only,
    `RAGEngine.analyze` returns the literal "nothing submitted" message and
    performs no remote call (no Vision Describer call, no agent call). -/
theorem C9_nothing_submitted (env : AnaEnv) (yandex : Option YState)
    (text : String) (image_path : Option String)
    (himg : ∀ p, image_path = some p → p = "" ∨ env.fileExists p = false)
    (htxt : pyStrip text.data = []) :
    RAGEngine.analyze env yandex text image_path =
      ⟨.ok "Не предоставлен материал для проверки. Введите текст или прикрепите изображение.",
       yandex, 0, 0⟩ := by
  cases image_path with
  | none => unfold RAGEngine.analyze; simp [htxt]
  | some p =>
    rcases himg p rfl with h | h
    · unfold RAGEngine.analyze; simp [h, htxt]
    · unfold RAGEngine.analyze; simp [h, htxt]

/-- Witness for C9: `analyze("", null)` on a configured engine. -/
theorem C9_nothing_submitted_witness :
    RAGEngine.analyze
      ⟨fun _ => false, ⟨.ok "d", ⟨.ok 1, .ok "r"⟩⟩, ⟨.ok 1, .ok "r"⟩⟩
      (some ⟨[], none, none, true⟩) "" none =
      ⟨.ok "Не предоставлен материал для проверки. Введите текст или прикрепите изображение.",
       some ⟨[], none, none, true⟩, 0, 0⟩ :=
  C9_nothing_submitted _ _ "" none (fun p hp => by cases hp) rfl

/-- Claim C6 (confirmed): when the Vision Describer call throws during an
    image+text `analyze_image` call, the result is the error string embedding
    a 200-character excerpt of the failure cause, the state is unchanged, and
    `YandexRAG.analyze` is never invoked (`yandexCalls = 0`). -/
theorem C6_image_fail_no_agent (env : ImgEnv) (st : YState) (text e : String)
    (h : env.describeRes = .error e) :
    RAGEngine.analyze_image env (some st) text =
      ⟨.ok ("Ошибка описания изображения (Gemini):\n" ++ e.take 200),
       some st, 1, 0⟩ := by
  unfold RAGEngine.analyze_image
  rw [h]

/-- Witness for C6: a concrete failing describe call. -/
theorem C6_image_fail_no_agent_witness :
    RAGEngine.analyze_image ⟨.error "boom", ⟨.ok 1, .ok "r"⟩⟩
      (some ⟨[], none, none, true⟩) "ad text" =
      ⟨.ok ("Ошибка описания изображения (Gemini):\n" ++ ("boom" : String).take 200),
       some ⟨[], none, none, true⟩, 1, 0⟩ :=
  C6_image_fail_no_agent ⟨.error "boom", ⟨.ok 1, .ok "r"⟩⟩
    ⟨[], none, none, true⟩ "ad text" "boom" rfl

/-- Fact: `assocGet` finds the value just written by `assocSet`. -/
lemma assocGet_assocSet (l : List (String × String)) (k v : String) :
    assocGet (assocSet l k v) k = some v := by
  induction l with
  | nil => simp [assocSet, assocGet]
  | cons p t ih =>
    by_cases h : p.1 = k
    · simp [assocSet, h, assocGet]
    · simp [assocSet, h, assocGet, ih]

/-- Claim C7 (confirmed): when the upload succeeds but index
    creation/extension throws, `add_file` raises the indexing error (wrapping
    the remote message) and the uploaded file's `name → id` entry stays
    recorded in the state (the operation is deliberately not atomic). -/
theorem C7_indexing_error_keeps_file (env : AddEnv) (name fid e : String) (st : YState)
    (hu : env.uploadRes = .ok fid) (hi : env.indexRes = .error e) :
    YandexRAG.add_file env name st =
      (.error (.indexingError
        ("Файл '" ++ name ++ "' загружен, но ошибка индексации:\n" ++ parse_grpc_error e)),
       { st with files := assocSet st.files name fid }) ∧
    assocGet (YandexRAG.add_file env name st).2.files name = some fid := by
  have hmain : YandexRAG.add_file env name st =
      (.error (.indexingError
        ("Файл '" ++ name ++ "' загружен, но ошибка индексации:\n" ++ parse_grpc_error e)),
       { st with files := assocSet st.files name fid }) := by
    unfold YandexRAG.add_file
    rw [hu, hi]
  refine ⟨hmain, ?_⟩
  rw [hmain]
  exact assocGet_assocSet st.files name fid

/-- Witness for C7: concrete upload-then-indexing-failure run. -/
theorem C7_indexing_error_keeps_file_witness :
    assocGet (YandexRAG.add_file ⟨.ok "fid1", .error "NOT_FOUND"⟩ "a.txt"
      ⟨[], none, none, false⟩).2.files "a.txt" = some "fid1" :=
  (C7_indexing_error_keeps_file ⟨.ok "fid1", .error "NOT_FOUND"⟩ "a.txt" "fid1" "NOT_FOUND"
    ⟨[], none, none, false⟩ rfl rfl).2

/-- A successful `headMatch` needs `sub` to fit inside `l`. -/
lemma headMatch_length : ∀ {sub l : List Char}, headMatch sub l = true →
    sub.length ≤ l.length := by
  intro sub
  induction sub with
  | nil => intro l _; simp
  | cons a s ih =>
    intro l h
    cases l with
    | nil => simp [headMatch] at h
    | cons b t =>
      simp only [headMatch, Bool.and_eq_true] at h
      have := ih h.2
      simp only [List.length_cons]
      omega

/-- Fact: `rfindAux` only returns positions at or below its starting index. -/
lemma rfindAux_le (text sub : List Char) :
    ∀ (i p : Nat), rfindAux text sub i = some p → p ≤ i := by
  intro i
  induction i with
  | zero =>
    intro p h
    unfold rfindAux at h
    by_cases hc : subAt text sub 0 = true
    · rw [if_pos hc] at h; cases h; exact le_rfl
    · rw [if_neg hc] at h; cases h
  | succ i ih =>
    intro p h
    unfold rfindAux at h
    by_cases hc : subAt text sub (i + 1) = true
    · rw [if_pos hc] at h; cases h; exact le_rfl
    · rw [if_neg hc] at h; exact le_trans (ih p h) (Nat.le_succ i)

/-- A position found by Python `rfind` leaves room for the whole needle. -/
lemma pyRfind_bound (text sub : List Char) (p : Nat)
    (h : pyRfind text sub = some p) : p + sub.length ≤ text.length := by
  unfold pyRfind at h
  by_cases hg : sub.length ≤ text.length
  · rw [if_pos hg] at h
    have h1 := rfindAux_le text sub _ p h
    omega
  · rw [if_neg hg] at h; cases h

/-- Inversion for `List.findSome?`: a hit comes from some member. -/
lemma findSome?_inv {α β : Type} (f : α → Option β) :
    ∀ (l : List α) (b : β), l.findSome? f = some b → ∃ a ∈ l, f a = some b := by
  intro l
  induction l with
  | nil => intro b h; simp [List.findSome?_nil] at h
  | cons x xs ih =>
    intro b h
    rw [List.findSome?_cons] at h
    cases hx : f x with
    | some c => rw [hx] at h; cases h; exact ⟨x, List.mem_cons_self x xs, hx⟩
    | none =>
      rw [hx] at h
      obtain ⟨a, ha, hfa⟩ := ih b h
      exact ⟨a, List.mem_cons_of_mem x ha, hfa⟩

/-- When the boundary snap fires, the shortened window ends exactly at
    `pos + len(sep)`, and that is strictly past 40% of `chunk_size`. -/
lemma trySnap_bound (cs : Nat) (ct ct' : List Char)
    (h : trySnap cs ct = some ct') :
    2 * cs < 5 * ct'.length := by
  unfold trySnap at h
  obtain ⟨sep, hmem, hsep⟩ := findSome?_inv _ _ _ h
  cases hr : pyRfind ct sep with
  | none => rw [hr] at hsep; cases hsep
  | some pos =>
    rw [hr] at hsep
    dsimp only at hsep
    by_cases hth : 2 * cs < 5 * pos
    · rw [if_pos hth] at hsep
      cases hsep
      have hb := pyRfind_bound ct sep pos hr
      have hlen : (ct.take (pos + sep.length)).length = pos + sep.length := by
        rw [List.length_take]; omega
      rw [hlen]
      omega
    · rw [if_neg hth] at hsep; cases hsep

/-- Fact: `dropWhile` is the identity on whitespace-free lists. -/
lemma dropWhile_nospace (l : List Char) (h : ∀ c ∈ l, pyIsSpace c = false) :
    l.dropWhile pyIsSpace = l := by
  cases l with
  | nil => rfl
  | cons a t =>
    rw [List.dropWhile_cons, if_neg]
    simp [h a (List.mem_cons_self a t)]

/-- Python `strip()` is the identity on whitespace-free strings. -/
lemma pyStrip_nospace (l : List Char) (h : ∀ c ∈ l, pyIsSpace c = false) :
    pyStrip l = l := by
  unfold pyStrip pyLStrip
  rw [dropWhile_nospace l h,
      dropWhile_nospace l.reverse (fun c hc => h c (List.mem_reverse.mp hc)),
      List.reverse_reverse]

/-- A matched needle's characters all occur in the haystack. -/
lemma headMatch_mem : ∀ {sub l : List Char}, headMatch sub l = true →
    ∀ c ∈ sub, c ∈ l := by
  intro sub
  induction sub with
  | nil => intro l _ c hc; cases hc
  | cons a s ih =>
    intro l h c hc
    cases l with
    | nil => simp [headMatch] at h
    | cons b t =>
      simp only [headMatch, Bool.and_eq_true, beq_iff_eq] at h
      rcases List.mem_cons.mp hc with h1 | h1
      · subst h1
        exact h.1 ▸ List.mem_cons_self b t
      · exact List.mem_cons_of_mem b (ih h.2 c h1)

/-- Fact: `rfind` misses when some character of the needle never occurs. -/
lemma pyRfind_nospace (text sub : List Char) (c : Char) (hc : c ∈ sub)
    (h : ∀ x ∈ text, x ≠ c) : pyRfind text sub = none := by
  have hsub : ∀ i, subAt text sub i = false := by
    intro i
    cases hb : subAt text sub i
    · rfl
    · exfalso
      unfold subAt at hb
      have hcmem := headMatch_mem hb c hc
      exact h c (List.mem_of_mem_drop hcmem) rfl
  have haux : ∀ i, rfindAux text sub i = none := by
    intro i
    induction i with
    | zero => simp [rfindAux, hsub 0]
    | succ i ih => simp [rfindAux, hsub (i + 1), ih]
  unfold pyRfind
  split
  · exact haux _
  · rfl

/-- No separator can fire on a whitespace-free window: every separator in
    the priority list contains a newline or a space. -/
lemma trySnap_nospace (cs : Nat) (ct : List Char)
    (h : ∀ x ∈ ct, pyIsSpace x = false) : trySnap cs ct = none := by
  have hn : ∀ x ∈ ct, x ≠ '\n' := by
    intro x hx heq
    subst heq
    exact absurd (h _ hx) (by decide)
  have hs : ∀ x ∈ ct, x ≠ ' ' := by
    intro x hx heq
    subst heq
    exact absurd (h _ hx) (by decide)
  have h1 := pyRfind_nospace ct ['.', '\n'] '\n' (by decide) hn
  have h2 := pyRfind_nospace ct ['\n'] '\n' (by decide) hn
  have h3 := pyRfind_nospace ct ['.', ' '] ' ' (by decide) hs
  have h4 := pyRfind_nospace ct ['?', ' '] ' ' (by decide) hs
  have h5 := pyRfind_nospace ct ['!', ' '] ' ' (by decide) hs
  unfold trySnap
  simp [sepList, List.findSome?_cons, h1, h2, h3, h4, h5]

/-- Characters of a slice come from the sliced list. -/
lemma mem_pySlice {x : Char} {l : List Char} {a b : Int}
    (h : x ∈ pySlice l a b) : x ∈ l := by
  unfold pySlice at h
  exact List.mem_of_mem_take (List.mem_of_mem_drop h)

/-- Length of a well-formed slice. -/
lemma pySlice_length (l : List Char) (a b : Int) (h0 : 0 ≤ a) (hab : a ≤ b)
    (hb : b ≤ (l.length : Int)) : (pySlice l a b).length = (b - a).toNat := by
  unfold pySlice pyIdx
  rw [if_neg (by omega), if_neg (by omega)]
  rw [List.length_drop, List.length_take]
  omega

/-- A well-formed slice is plain `take`/`drop`. -/
lemma pySlice_toTakeDrop (l : List Char) (a b : Int) (h0 : 0 ≤ a) (hb0 : 0 ≤ b)
    (ha : a ≤ (l.length : Int)) (hb : b ≤ (l.length : Int)) :
    pySlice l a b = (l.take b.toNat).drop a.toNat := by
  unfold pySlice pyIdx
  rw [if_neg (by omega), if_neg (by omega)]
  have e1 : min b.toNat l.length = b.toNat := by omega
  have e2 : min a.toNat l.length = a.toNat := by omega
  rw [e1, e2]

/-- One non-final, non-snapping iteration of the chunking loop on a
    whitespace-free text: the window `[start : start + chunk_size]` is kept
    whole, emitted as a chunk, and the loop continues at
    `start + chunk_size - chunk_overlap`. -/
lemma chunkLoop_step_nospace (cs co : Nat) (text : List Char) (source : String)
    (fuel : Nat) (start endI nextI : Int) (cid : Nat)
    (hws : ∀ c ∈ text, pyIsSpace c = false)
    (h0 : 0 ≤ start)
    (hendI : endI = start + cs) (hnextI : nextI = endI - co)
    (hend : endI < (text.length : Int)) (hcs : 0 < cs)
    (hnb : ¬ (text.length : Int) ≤ nextI) :
    chunkLoop cs co text source (fuel + 1) start cid =
      Option.map (mkChunk source (pySlice text start endI) cid :: ·)
        (chunkLoop cs co text source fuel nextI (cid + 1)) := by
  have hlt : start < (text.length : Int) := by omega
  conv_lhs => rw [chunkLoop]
  rw [if_pos hlt]
  dsimp only
  have hmin : min (start + (cs : Int)) (text.length : Int) = start + cs := by omega
  rw [hmin, ← hendI]
  have hslice : ∀ x ∈ pySlice text start endI, pyIsSpace x = false :=
    fun x hx => hws x (mem_pySlice hx)
  rw [if_pos hend, trySnap_nospace cs _ hslice]
  dsimp only
  rw [pyStrip_nospace _ hslice]
  have hlen : (pySlice text start endI).length = (endI - start).toNat :=
    pySlice_length text start endI h0 (by omega) (by omega)
  have hne : pySlice text start endI ≠ [] := by
    intro hx
    rw [hx] at hlen
    simp at hlen
    omega
  rw [← hnextI]
  rw [if_neg (by omega : ¬((text.length : Int) ≤ nextI ∨ endI = (text.length : Int)))]
  rw [if_pos hne, if_pos hne]

/-- The final iteration of the chunking loop on a whitespace-free text: the
    window reaches the end of the text, the tail chunk is emitted, and the
    `end == len(text)` safety break stops the loop. -/
lemma chunkLoop_last_nospace (cs co : Nat) (text : List Char) (source : String)
    (fuel : Nat) (start : Int) (cid : Nat)
    (hws : ∀ c ∈ text, pyIsSpace c = false)
    (h0 : 0 ≤ start) (hlt : start < (text.length : Int))
    (hend : (text.length : Int) ≤ start + cs) :
    chunkLoop cs co text source (fuel + 1) start cid =
      some [mkChunk source (pySlice text start (text.length : Int)) cid] := by
  unfold chunkLoop
  rw [if_pos hlt]
  dsimp only
  have hmin : min (start + (cs : Int)) (text.length : Int) = (text.length : Int) := by
    omega
  rw [hmin]
  rw [if_neg (lt_irrefl _)]
  dsimp only
  have hslice : ∀ x ∈ pySlice text start (text.length : Int), pyIsSpace x = false :=
    fun x hx => hws x (mem_pySlice hx)
  rw [pyStrip_nospace _ hslice]
  have hlen : (pySlice text start (text.length : Int)).length =
      ((text.length : Int) - start).toNat :=
    pySlice_length text start _ h0 (by omega) (by omega)
  have hne : pySlice text start (text.length : Int) ≠ [] := by
    intro hx
    rw [hx] at hlen
    simp at hlen
    omega
  rw [if_pos hne]
  rw [if_pos (Or.inr rfl)]
  rfl

/-- The full trace of `split_into_chunks(text)` with the default parameters
    on a whitespace-free 2500-character text: three iterations at starts
    0, 800 and 1600; the third window reaches the end, so the loop breaks
    after the third chunk (no chunk starts at 2400). -/
lemma split_2500_nospace (text : List Char) (source : String) (fuel : Nat)
    (hlen : text.length = 2500) (hws : ∀ c ∈ text, pyIsSpace c = false) :
    split_into_chunks 1000 200 text source (fuel + 3) =
      some [mkChunk source (text.take 1000) 0,
            mkChunk source ((text.take 1800).drop 800) 1,
            mkChunk source (text.drop 1600) 2] := by
  unfold split_into_chunks
  rw [pyStrip_nospace text hws]
  have hne : text ≠ [] := by
    intro h
    rw [h] at hlen
    simp at hlen
  rw [if_neg hne]
  rw [show fuel + 3 = fuel + 2 + 1 from rfl]
  rw [chunkLoop_step_nospace 1000 200 text source (fuel + 2) 0 1000 800 0 hws
      le_rfl (by norm_num) (by norm_num) (by omega) (by norm_num) (by omega)]
  rw [show fuel + 2 = fuel + 1 + 1 from rfl]
  rw [chunkLoop_step_nospace 1000 200 text source (fuel + 1) 800 1800 1600 1 hws
      (by norm_num) (by norm_num) (by norm_num) (by omega) (by norm_num) (by omega)]
  rw [chunkLoop_last_nospace 1000 200 text source fuel 1600 2 hws
      (by norm_num) (by omega) (by omega)]
  have hL : (text.length : Int) = (2500 : Int) := by omega
  rw [hL]
  rw [pySlice_toTakeDrop text 0 1000 (by norm_num) (by norm_num) (by omega) (by omega),
      pySlice_toTakeDrop text 800 1800 (by norm_num) (by norm_num) (by omega) (by omega),
      pySlice_toTakeDrop text 1600 2500 (by norm_num) (by norm_num) (by omega) (by omega)]
  have ht0 : ((0 : Int)).toNat = 0 := rfl
  have ht1000 : ((1000 : Int)).toNat = 1000 := rfl
  have ht800 : ((800 : Int)).toNat = 800 := rfl
  have ht1800 : ((1800 : Int)).toNat = 1800 := rfl
  have ht1600 : ((1600 : Int)).toNat = 1600 := rfl
  have ht2500 : ((2500 : Int)).toNat = 2500 := rfl
  rw [ht0, ht1000, ht800, ht1800, ht1600, ht2500, List.drop_zero]
  rw [show (2500 : Nat) = text.length from hlen.symm, List.take_length]
  rfl

/-- Counterexample to claim C1 as stated: on a concrete 2500-character text
    with no boundary markers (2500 letters `a`), `split_into_chunks` with
    `chunk_size = 1000`, `chunk_overlap = 200` returns 3 chunks, not 4: the
    third window `[1600:2500]` reaches the end of the text and the
    `end == len(text)` break fires, so no fourth chunk starts at 2400. -/
theorem C1_counterexample :
    ¬ ((split_into_chunks 1000 200 (List.replicate 2500 'a') "doc" (2500 + 3)).map
        List.length = some 4) := by
  have h := split_2500_nospace (List.replicate 2500 'a') "doc" 2500
    (List.length_replicate 2500 'a')
    (fun c hc => by rw [List.eq_of_mem_replicate hc]; rfl)
  rw [h]
  intro hx
  rw [Option.map_some'] at hx
  have h3 := Option.some.inj hx
  simp only [List.length_cons, List.length_nil] at h3
  omega

/-- Claim C1 (amended): for every 2500-character text with no whitespace
    (hence no boundary markers), `split_into_chunks` with `chunk_size = 1000`
    and `chunk_overlap = 200` returns exactly 3 chunks, whose start offsets
    in the text are 0, 800 and 1600 (texts `text[0:1000]`, `text[800:1800]`,
    `text[1600:2500]`): advance is 800 for the first two iterations, and the
    loop breaks when the third window reaches the end of the text. -/
theorem C1_chunk_layout (text : List Char) (source : String) (fuel : Nat)
    (hlen : text.length = 2500) (hws : ∀ c ∈ text, pyIsSpace c = false) :
    split_into_chunks 1000 200 text source (fuel + 3) =
      some [mkChunk source (text.take 1000) 0,
            mkChunk source ((text.take 1800).drop 800) 1,
            mkChunk source (text.drop 1600) 2] :=
  split_2500_nospace text source fuel hlen hws

/-- Witness for C1 (amended): the all-`a` 2500-character text. -/
theorem C1_chunk_layout_witness :
    split_into_chunks 1000 200 (List.replicate 2500 'a') "doc" (0 + 3) =
      some [mkChunk "doc" ((List.replicate 2500 'a').take 1000) 0,
            mkChunk "doc" (((List.replicate 2500 'a').take 1800).drop 800) 1,
            mkChunk "doc" ((List.replicate 2500 'a').drop 1600) 2] :=
  C1_chunk_layout (List.replicate 2500 'a') "doc" 0
    (List.length_replicate 2500 'a')
    (fun c hc => by rw [List.eq_of_mem_replicate hc]; rfl)

/-- Claim C8 (confirmed): whenever boundary snapping shortens a window
    (`trySnap` is exactly the in-loop shortening step; `some` means the snap
    was applied), the resulting chunk before whitespace trimming is longer
    than 40% of `chunk_size`: `2 * chunk_size < 5 * length`. -/
theorem C8_snap_threshold (chunk_size : Nat) (chunk_text ct' : List Char)
    (h : trySnap chunk_size chunk_text = some ct') :
    2 * chunk_size < 5 * ct'.length :=
  trySnap_bound chunk_size chunk_text ct' h

/-- Witness for C8: a concrete snapped window of 7 > 0.4 * 10 characters. -/
theorem C8_snap_threshold_witness :
    2 * 10 < 5 * ("aaaaa. ".data).length :=
  C8_snap_threshold 10 "aaaaa. aaa".data "aaaaa. ".data rfl

/-- The 13-character text on which chunking diverges with
    `chunk_size = 10`, `chunk_overlap = 9`. -/
def divergeText : List Char := "abcdefg. hzzz".data

/-- One iteration of the diverging loop: the window `[0:10]` is snapped at
    the `". "` boundary to `[0:9]`, and `start` returns to `9 - 9 = 0`. -/
lemma chunkLoop_diverge : ∀ (fuel cid : Nat),
    chunkLoop 10 9 divergeText "s" fuel 0 cid = none
  | 0, _ => rfl
  | fuel + 1, cid => by
    have hstep : chunkLoop 10 9 divergeText "s" (fuel + 1) 0 cid =
        Option.map (mkChunk "s" "abcdefg.".data cid :: ·)
          (chunkLoop 10 9 divergeText "s" fuel 0 (cid + 1)) := rfl
    rw [hstep, chunkLoop_diverge fuel (cid + 1)]
    rfl

/-- Counterexample to claim C4 as stated: a non-empty text with
    `chunk_overlap = 9 < 10 = chunk_size` on which `split_into_chunks` never
    terminates — the `". "` snap moves `end` back to 9 each time, so
    `start = end - overlap` stays 0 forever and no fuel suffices. -/
theorem C4_counterexample :
    divergeText ≠ [] ∧ 9 < 10 ∧ splitDiverges 10 9 divergeText "s" := by
  refine ⟨by decide, by decide, ?_⟩
  intro fuel
  show chunkLoop 10 9 divergeText "s" fuel 0 0 = none
  exact chunkLoop_diverge fuel 0

/-- Fact: `Option.isSome` survives the chunk-collection step of the loop body. -/
lemma isSome_ite_map {α : Type} (c : Prop) [Decidable c] (f : α → α)
    (t : Option α) (h : t.isSome) :
    (if c then Option.map f t else t).isSome := by
  cases t with
  | none => simp at h
  | some a => split <;> rfl

/-- With chunk overlap at most the 40% snap threshold, every loop iteration
    advances `start` by at least one, so fuel `L - start` suffices. -/
lemma chunkLoop_isSome (cs co : Nat) (text : List Char) (source : String)
    (hcs : 1 ≤ cs) (hco : 5 * co ≤ 2 * cs) :
    ∀ (fuel : Nat) (start : Int) (cid : Nat), 0 ≤ start →
      (text.length : Int) ≤ start + fuel →
      (chunkLoop cs co text source fuel start cid).isSome := by
  intro fuel
  induction fuel with
  | zero =>
    intro start cid h0 hle
    unfold chunkLoop
    rw [if_neg (by push_cast at hle ⊢; omega)]
    rfl
  | succ fuel ih =>
    intro start cid h0 hle
    unfold chunkLoop
    by_cases hguard : start < (text.length : Int)
    swap
    · rw [if_neg hguard]; rfl
    rw [if_pos hguard]
    dsimp only
    by_cases hend : min (start + (cs : Int)) (text.length : Int) < (text.length : Int)
    swap
    · have heq : min (start + (cs : Int)) (text.length : Int) = (text.length : Int) := by
        omega
      rw [if_neg hend]
      dsimp only
      apply isSome_ite_map
      rw [if_pos (Or.inr heq)]
      rfl
    rw [if_pos hend]
    cases htry : trySnap cs (pySlice text start (min (start + (cs : Int)) (text.length : Int))) with
    | none =>
      dsimp only
      have hmin : min (start + (cs : Int)) (text.length : Int) = start + cs := by omega
      rw [hmin]
      apply isSome_ite_map
      by_cases hbreak : (text.length : Int) ≤ start + (cs : Int) - (co : Int) ∨
          start + (cs : Int) = (text.length : Int)
      · rw [if_pos hbreak]; rfl
      · rw [if_neg hbreak]
        apply ih
        · omega
        · push_cast at hle ⊢; omega
    | some ct2 =>
      dsimp only
      have hlen2 := trySnap_bound cs _ ct2 htry
      apply isSome_ite_map
      by_cases hbreak : (text.length : Int) ≤ start + (ct2.length : Int) - (co : Int) ∨
          start + (ct2.length : Int) = (text.length : Int)
      · rw [if_pos hbreak]; rfl
      · rw [if_neg hbreak]
        apply ih
        · omega
        · push_cast at hle ⊢; omega

/-- Claim C4 (amended): the hypothesis `chunk_overlap < chunk_size` is not
    enough (see the counterexample); with the stronger hypothesis
    `5 * chunk_overlap ≤ 2 * chunk_size` (overlap at most the 40% snap
    threshold) and `chunk_size ≥ 1`, the loop terminates on every input
    within at most `L + 1` iterations, `L` the stripped text length. -/
theorem C4_termination (chunk_size chunk_overlap : Nat) (text : List Char)
    (source : String) (hcs : 1 ≤ chunk_size)
    (hco : 5 * chunk_overlap ≤ 2 * chunk_size) :
    (split_into_chunks chunk_size chunk_overlap text source
        ((pyStrip text).length + 1)).isSome := by
  unfold split_into_chunks
  by_cases hx : pyStrip text = []
  · rw [if_pos hx]; rfl
  · rw [if_neg hx]
    apply chunkLoop_isSome chunk_size chunk_overlap (pyStrip text) source hcs hco
      ((pyStrip text).length + 1) 0 0 le_rfl
    push_cast
    omega

/-- Witness for C4 (amended): default parameters, 5-character text, 6 fuel. -/
theorem C4_termination_witness :
    (split_into_chunks 1000 200 "hello".data "doc" 6).isSome :=
  C4_termination 1000 200 "hello".data "doc" (by omega) (by omega)

/-- Behaviour of the retry loop from attempt `m - d` on, when the next `k`
    invocations fail with rate-limit errors and invocation `k` succeeds. -/
lemma retryAux_spec {α : Type} (f : FnOutcomes α) (m : Nat) (base : ℚ) (v : α) :
    ∀ (k d : Nat), k ≤ d → d ≤ m →
      (∀ i, i < k → ∃ e, f (m - d + i) = .error e ∧ isRateLimitMsg e = true) →
      f (m - d + k) = .ok v →
      retryAux f m base d =
        (.ok v, (List.range k).map (fun i => base * 2 ^ (m - d + i)), k + 1) := by
  intro k
  induction k with
  | zero =>
    intro d _ _ _ hs
    rw [Nat.add_zero] at hs
    cases d with
    | zero => rw [Nat.sub_zero] at hs; simp [retryAux, hs]
    | succ d' => simp [retryAux, hs]
  | succ k ih =>
    intro d hkd hdm hfail hs
    cases d with
    | zero => omega
    | succ d' =>
      obtain ⟨e0, he0, hrl⟩ := hfail 0 (Nat.succ_pos k)
      rw [Nat.add_zero] at he0
      have hlt : m - (d' + 1) < m := by omega
      have harith : ∀ i : Nat, m - (d' + 1) + (i + 1) = m - d' + i := fun i => by omega
      have hrec := ih d' (by omega) (by omega)
        (fun i hi => by
          have h2 := hfail (i + 1) (by omega)
          rwa [harith i] at h2)
        (harith k ▸ hs)
      simp only [retryAux, he0]
      rw [if_pos ⟨hrl, hlt⟩, hrec]
      simp only [Prod.mk.injEq]
      refine ⟨by trivial, ?_, by trivial⟩
      rw [List.range_succ_eq_map, List.map_cons, List.map_map]
      have hfun : ((fun i => base * 2 ^ (m - (d' + 1) + i)) ∘ Nat.succ) =
          (fun i => base * 2 ^ (m - d' + i)) := by
        funext i
        simp only [Function.comp_apply, Nat.succ_eq_add_one]
        rw [harith i]
      rw [hfun]
      norm_num

/-- Claim C5 (confirmed): if the operation fails with rate-limit errors
    exactly on attempts `0..k-1` and succeeds on attempt `k ≤ max_retries`,
    `_retry_call` returns the success value after sleeping
    `base_delay * 2^0, ..., base_delay * 2^(k-1)` and invoking the operation
    `k + 1` times; and a first failure that is not a rate-limit error is
    re-raised after exactly one invocation, with no sleep. -/
theorem C5_retry_behavior :
    (∀ (α : Type) (f : FnOutcomes α) (max_retries k : Nat) (base : ℚ) (v : α),
        k ≤ max_retries →
        (∀ i, i < k → ∃ e, f i = .error e ∧ isRateLimitMsg e = true) →
        f k = .ok v →
        retry_call f max_retries base =
          (.ok v, (List.range k).map (fun i => base * 2 ^ i), k + 1)) ∧
    (∀ (α : Type) (f : FnOutcomes α) (max_retries : Nat) (base : ℚ) (e : String),
        f 0 = .error e → isRateLimitMsg e = false →
        retry_call f max_retries base = (.error e, [], 1)) := by
  constructor
  · intro α f m k base v hk hfail hs
    have h := retryAux_spec f m base v k m hk le_rfl
      (by intro i hi; simpa using hfail i hi)
      (by simpa using hs)
    unfold retry_call
    simpa using h
  · intro α f m base e h0 hnr
    unfold retry_call
    cases m with
    | zero => simp [retryAux, h0]
    | succ m' =>
      have hz : m' + 1 - (m' + 1) = 0 := by omega
      simp [retryAux, hz, h0, hnr]

/-- Witness for C5: one 429 failure then success (`max_retries = 3`,
    `base_delay = 5` as in config), and a fatal first failure. -/
theorem C5_retry_behavior_witness :
    retry_call (fun i => if i = 0 then (.error "HTTP 429" : Except String Nat) else .ok 7) 3 5 =
      (.ok 7, (List.range 1).map (fun i => (5 : ℚ) * 2 ^ i), 2) ∧
    retry_call (fun _ => (.error "fatal" : Except String Nat)) 3 5 = (.error "fatal", [], 1) := by
  constructor
  · exact C5_retry_behavior.1 Nat _ 3 1 5 7 (by omega)
      (fun i hi => by
        have hi0 : i = 0 := by omega
        subst hi0
        exact ⟨"HTTP 429", rfl, rfl⟩)
      rfl
  · exact C5_retry_behavior.2 Nat _ 3 5 "fatal" rfl rfl

/-- Counterexample to claim C2 as stated: starting from a state whose dirty
    flag is false (e.g. right after `_ensure_assistant` cleared it),
    `remove_file` succeeds (it never raises) yet leaves the dirty flag false —
    the source never touches `_index_dirty` in `remove_file`. -/
theorem C2_counterexample :
    (YandexRAG.remove_file "a.txt"
      ⟨[("a.txt", "f1")], some "idx", some 1, false⟩).indexDirty = false := rfl

/-- Claim C2 (amended): after any successful `add_file` the dirty flag is
    true, after `clear_all` it is true, but `remove_file` leaves the dirty
    flag unchanged (it is not set by that operation). -/
theorem C2_dirty_flag :
    (∀ (env : AddEnv) (name r : String) (st st' : YState),
        YandexRAG.add_file env name st = (.ok r, st') → st'.indexDirty = true) ∧
    (∀ st : YState, (YandexRAG.clear_all st).indexDirty = true) ∧
    (∀ (name : String) (st : YState),
        (YandexRAG.remove_file name st).indexDirty = st.indexDirty) := by
  refine ⟨?_, fun st => rfl, fun name st => rfl⟩
  intro env name r st st' h
  unfold YandexRAG.add_file at h
  cases hu : env.uploadRes with
  | error e => rw [hu] at h; simp at h
  | ok fid =>
    rw [hu] at h
    cases hi : env.indexRes with
    | error e => rw [hi] at h; simp at h
    | ok idxId =>
      rw [hi] at h
      simp only [Prod.mk.injEq] at h
      rw [← h.2]

/-- If the assistant-creation call does not throw, `YandexRAG.analyze`
    returns a string for every state and every thread/run outcome. -/
lemma yanalyze_ok (env : AnalyzeEnv) (query : String) (st : YState) (aid : Nat)
    (hc : env.createRes = .ok aid) :
    ∃ s, (YandexRAG.analyze env query st).1 = .ok s := by
  unfold YandexRAG.analyze YandexRAG.ensure_assistant
  by_cases hcheap : st.assistant.isSome ∧ ¬st.indexDirty
  · obtain ⟨a, ha⟩ := Option.isSome_iff_exists.mp hcheap.1
    cases hr : env.runRes with
    | error e =>
      exact ⟨"Ошибка анализа через YandexGPT:\n" ++ parse_grpc_error e,
        by simp [hcheap, ha, hr]⟩
    | ok text =>
      by_cases ht : pyStrip text.data = []
      · exact ⟨"(YandexGPT вернул пустой ответ.)", by simp [hcheap, ha, hr, ht]⟩
      · exact ⟨text, by simp [hcheap, ha, hr, ht]⟩
  · have hcheap' : ¬(st.assistant.isSome = true ∧ st.indexDirty = false) := by
      simpa using hcheap
    cases hr : env.runRes with
    | error e =>
      exact ⟨"Ошибка анализа через YandexGPT:\n" ++ parse_grpc_error e,
        by simp [hcheap', hc, hr]⟩
    | ok text =>
      by_cases ht : pyStrip text.data = []
      · exact ⟨"(YandexGPT вернул пустой ответ.)", by simp [hcheap', hc, hr, ht]⟩
      · exact ⟨text, by simp [hcheap', hc, hr, ht]⟩

/-- Counterexample to claim C3 as stated: `_ensure_assistant()` is invoked
    *before* the `try` block of `YandexRAG.analyze`, so when the remote
    `sdk.assistants.create` call throws, the exception propagates out of
    `RAGEngine.analyze` instead of being converted to a result string. -/
theorem C3_counterexample :
    (RAGEngine.analyze
      ⟨fun _ => false, ⟨.ok "d", ⟨.error "boom", .ok "r"⟩⟩, ⟨.error "boom", .ok "r"⟩⟩
      (some ⟨[], none, none, true⟩) "hi" none).result = .error "boom" := rfl

/-- Claim C3 (amended): for every input and every behaviour of the remote
    services in which the assistant-creation call does not throw,
    `RAGEngine.analyze` never raises — every failure path returns a
    descriptive string. -/
theorem C3_analyze_no_raise (env : AnaEnv) (yandex : Option YState)
    (text : String) (image_path : Option String)
    (aid1 aid2 : Nat)
    (hc1 : env.txtEnv.createRes = .ok aid1)
    (hc2 : env.imgEnv.aEnv.createRes = .ok aid2) :
    ∃ s, (RAGEngine.analyze env yandex text image_path).result = .ok s := by
  unfold RAGEngine.analyze
  set imageOk :=
    (match image_path with
      | none => false
      | some p => decide (p ≠ "") && env.fileExists p) with himg
  by_cases hio : imageOk
  · rw [if_pos hio]
    unfold RAGEngine.analyze_image
    cases yandex with
    | none => exact ⟨_, rfl⟩
    | some st =>
      cases hd : env.imgEnv.describeRes with
      | error e =>
        exact ⟨"Ошибка описания изображения (Gemini):\n" ++ e.take 200, by simp [hd]⟩
      | ok d =>
        obtain ⟨s, hs⟩ := yanalyze_ok env.imgEnv.aEnv (imageQuery st d text) st aid2 hc2
        exact ⟨s, by simp [hd, hs]⟩
  · rw [if_neg hio]
    by_cases ht : pyStrip text.data ≠ []
    · rw [if_pos ht]
      unfold RAGEngine.analyze_text
      cases yandex with
      | none => exact ⟨_, rfl⟩
      | some st =>
        obtain ⟨s, hs⟩ := yanalyze_ok env.txtEnv (textQuery st text) st aid1 hc1
        exact ⟨s, by simp [hs]⟩
    · rw [if_neg ht]
      exact ⟨_, rfl⟩

/-- Witness for C3 (amended): a run where the thread/run phase throws still
    produces a result string. -/
theorem C3_analyze_no_raise_witness :
    ∃ s, (RAGEngine.analyze
      ⟨fun _ => false, ⟨.ok "d", ⟨.ok 7, .error "RESOURCE_EXHAUSTED"⟩⟩,
        ⟨.ok 7, .error "RESOURCE_EXHAUSTED"⟩⟩
      (some ⟨[], none, none, true⟩) "hi" none).result = .ok s :=
  C3_analyze_no_raise
    ⟨fun _ => false, ⟨.ok "d", ⟨.ok 7, .error "RESOURCE_EXHAUSTED"⟩⟩,
      ⟨.ok 7, .error "RESOURCE_EXHAUSTED"⟩⟩
    (some ⟨[], none, none, true⟩) "hi" none 7 7 rfl rfl

/-- Witness for C2: a concrete successful `add_file` sets the dirty flag. -/
theorem C2_dirty_flag_witness :
    (YandexRAG.add_file ⟨.ok "f1", .ok "idx"⟩ "a.txt"
      ⟨[], none, none, false⟩).2.indexDirty = true :=
  C2_dirty_flag.1 ⟨.ok "f1", .ok "idx"⟩ "a.txt" "a.txt" ⟨[], none, none, false⟩
    (YandexRAG.add_file ⟨.ok "f1", .ok "idx"⟩ "a.txt" ⟨[], none, none, false⟩).2 rfl

end AdCensor
